import Mathlib

/-!
Verification of the reactive state subsystem of CatQuery.ts: the
CatStore observable container (Proxy-intercepted field writes,
localStorage persistence, Set-based listener registry), the
subscription protocol, and the render/patch binder (the setter branch
of CatQuery.html and CatQuery.bind).

Modelling conventions.

State records are flat JavaScript objects: insertion-ordered
associations of string keys to primitive values.  JSON.stringify and
JSON.parse are mutually inverse on such records, so the serialized
snapshot text held in localStorage is modelled by the record it
encodes; the persistence surface maps slot keys to whole-record
snapshots, exactly what `localStorage.setItem(key, JSON.stringify(target))`
stores.

Listeners are JavaScript function identities, modelled by natural
numbers.  Their observable behaviour during a store operation is an
event trace: a persistence save of a full snapshot, and an invocation
of a listener with the full current state.  Whether a listener's
callback throws on a given state is an external parameter
`thr : Nat → Obj → Bool`, and whether `localStorage.setItem` throws
(e.g. quota exceeded) is an external parameter
`saveThrows : String → Obj → Bool`.  An exception escaping the Proxy
set trap is the `error` component of the write result.

The DOM is the browser's: the host parser (DOMParser), the innerHTML
serialization of a child list, and deep cloneNode are parameters of
the html patch rule, and a target element is its list of child nodes.
-/

/-- A primitive JavaScript value held in a state record field
(numbers are modelled by integers; no claim depends on float
arithmetic). -/
inductive JsValue where
  | num (n : Int)
  | str (s : String)
  | bool (b : Bool)
deriving DecidableEq, Repr

/-- A flat JavaScript object: an insertion-ordered association of
string keys to primitive values. -/
abbrev Obj := List (String × JsValue)

/-- Property write `target[key] = value` on a JavaScript object: an
existing key is updated in place, keeping its insertion position; a
new key is appended. -/
def objSet : Obj → String → JsValue → Obj
  | [], k, v => [(k, v)]
  | (k', v') :: rest, k, v =>
      if k' = k then (k, v) :: rest else (k', v') :: objSet rest k v

/-- Property read `target[key]` on a JavaScript object. -/
def objGet : Obj → String → Option JsValue
  | [], _ => none
  | (k', v') :: rest, k => if k' = k then some v' else objGet rest k

/-- The localStorage surface: slot key to the record encoded by the
stored JSON text (`JSON.stringify` of a flat record is never the empty
string, and `JSON.parse` recovers the record exactly). -/
abbrev Storage := List (String × Obj)

/-- `localStorage.getItem`, composed with `JSON.parse` of the found
text: the snapshot stored at a slot, if any. -/
def storageGet : Storage → String → Option Obj
  | [], _ => none
  | (k', o) :: rest, k => if k' = k then some o else storageGet rest k

/-- `localStorage.setItem(key, JSON.stringify(target))`: overwrites the
slot with a snapshot of the entire record. -/
def storageSet : Storage → String → Obj → Storage
  | [], k, o => [(k, o)]
  | (k', o') :: rest, k, o =>
      if k' = k then (k, o) :: rest else (k', o') :: storageSet rest k o

/-- An observable event emitted during a store operation: a
persistence save of a full snapshot to a slot, or an invocation of a
listener carrying the full current state. -/
inductive Event where
  | save (slot : String) (snapshot : Obj)
  | call (listener : Nat) (value : Obj)
deriving DecidableEq, Repr

/-- An exception escaping the Proxy set trap: `localStorage.setItem`
threw, or a listener's callback threw during the notification pass. -/
inductive WriteError where
  | saveFailure
  | listenerError (listener : Nat)
deriving DecidableEq, Repr

/-- The closure `() => this.listeners.delete(listener)` returned by
subscribe: it captures the identity of the listener it deletes. -/
structure Unsub where
  listener : Nat
deriving DecidableEq, Repr

/-- CatStore: `listeners` is the `Set<CatListener<T>>` of listener
identities in insertion order (no duplicates once reachable),
`state` is the record behind the exposed Proxy, and `storageKey` is
the optional persistence slot. -/
structure CatStore where
  listeners : List Nat
  state : Obj
  storageKey : Option String
deriving DecidableEq, Repr

/-- The CatStore constructor: when `storageKey` is truthy (non-null
and non-empty, per JavaScript truthiness of `storageKey ? ... : null`)
and a snapshot is found at the slot, `JSON.parse` of it becomes the
base state in place of `initialState`; otherwise the base state is
`initialState`.  The store starts with an empty listener set. -/
def CatStore.construct (storage : Storage) (initialState : Obj)
    (storageKey : Option String) : CatStore :=
  let savedState := match storageKey with
    | some key => if key = "" then none else storageGet storage key
    | none => none
  let baseState := match savedState with
    | some s => s
    | none => initialState
  { listeners := [], state := baseState, storageKey := storageKey }

/-- `this.listeners.add(listener)`: a JavaScript Set keeps insertion
order and ignores a duplicate add. -/
def addListener (ls : List Nat) (l : Nat) : List Nat :=
  if l ∈ ls then ls else ls ++ [l]

/-- `CatStore.subscribe(listener)`: adds the listener to the Set, then
immediately invokes `listener(this.state)` once, then returns the
unsubscribe closure.  When the immediate invocation throws, the
exception propagates and no handle is returned to the caller. -/
def CatStore.subscribe (st : CatStore) (l : Nat) (thr : Nat → Obj → Bool) :
    CatStore × List Event × Option Unsub :=
  let st' := { st with listeners := addListener st.listeners l }
  if thr l st.state then (st', [Event.call l st.state], none)
  else (st', [Event.call l st.state], some { listener := l })

/-- Invoking an unsubscribe closure: `this.listeners.delete(listener)`
removes the captured listener identity from the Set; deleting an
absent listener is a no-op. -/
def CatStore.applyUnsub (st : CatStore) (u : Unsub) : CatStore :=
  { st with listeners := st.listeners.filter (fun l => l != u.listener) }

/-- `this.listeners.forEach(l => l(this.state))`: each listener is
invoked with the full current state in insertion order; a listener
whose callback throws is itself invoked, and the exception aborts the
iteration, so listeners after it are not invoked. -/
def notifyFrom (ls : List Nat) (s : Obj) (thr : Nat → Obj → Bool) :
    List Event × Option WriteError :=
  match ls with
  | [] => ([], none)
  | l :: rest =>
      if thr l s then ([Event.call l s], some (WriteError.listenerError l))
      else
        let r := notifyFrom rest s thr
        (Event.call l s :: r.1, r.2)

/-- `CatStore.notify()`: one notification pass over the registry with
the current state. -/
def CatStore.notify (st : CatStore) (thr : Nat → Obj → Bool) :
    List Event × Option WriteError :=
  notifyFrom st.listeners st.state thr

/-- The outcome of one field write through the exposed Proxy: the
store afterwards, the persistence surface afterwards, the emitted
event trace in order, and the exception that escaped, if any. -/
structure WriteResult where
  store : CatStore
  storage : Storage
  events : List Event
  error : Option WriteError
deriving DecidableEq, Repr

/-- The Proxy `set` trap on `store.state`: first `target[key] = value`
is applied to the underlying record; then, when `this.storageKey` is
truthy (non-null and non-empty), `JSON.stringify` of the entire record
is written to the slot — if that save throws, the exception escapes
before `this.notify()` runs; finally `this.notify()` invokes every
listener with the full current state. -/
def CatStore.setField (st : CatStore) (storage : Storage)
    (saveThrows : String → Obj → Bool) (thr : Nat → Obj → Bool)
    (k : String) (v : JsValue) : WriteResult :=
  let s' := objSet st.state k v
  let st' := { st with state := s' }
  match st.storageKey with
  | some key =>
      if key = "" then
        let r := st'.notify thr
        { store := st', storage := storage, events := r.1, error := r.2 }
      else if saveThrows key s' then
        { store := st', storage := storage, events := [],
          error := some WriteError.saveFailure }
      else
        let r := st'.notify thr
        { store := st', storage := storageSet storage key s',
          events := Event.save key s' :: r.1, error := r.2 }
  | none =>
      let r := st'.notify thr
      { store := st', storage := storage, events := r.1, error := r.2 }

/-- The setter branch of `CatQuery.html(htmlText, adding)` applied to
one target element's child list, over the host primitives: `parse`
(DOMParser on the markup, yielding `newDoc.body.childNodes` as a
detached node sequence), `ser` (the innerHTML serialization of a child
list) and `clone` (deep `cloneNode(true)`).  A falsy — that is, empty —
`htmlText` selects the getter overload of `html`, which does not touch
the target.  With `adding` set, clones are appended; otherwise the
children are replaced by clones only when the target's current
innerHTML differs textually from the markup. -/
def htmlSet {Node : Type} (parse : String → List Node)
    (ser : List Node → String) (clone : Node → Node)
    (htmlText : String) (adding : Bool) (children : List Node) :
    List Node :=
  if htmlText = "" then children
  else
    let newNodes := parse htmlText
    if adding then children ++ newNodes.map clone
    else if ser children = htmlText then children
    else newNodes.map clone

/-- A value `CatQuery.bind` can hand back to its caller: the CatQuery
instance itself (which holds no reference to the subscription it
created), or an unsubscribe closure. -/
inductive CatValue where
  | query
  | unsub (u : Unsub)
deriving DecidableEq, Repr

/-- `CatQuery.bind(store, renderFn)`: subscribes a fresh render
listener (identity `bid`) to the store — which replays immediately —
and executes `return this`: the CatQuery instance is returned and the
unsubscribe closure produced by the subscription is discarded. -/
def CatQuery.bind (st : CatStore) (bid : Nat) (thr : Nat → Obj → Bool) :
    CatStore × List Event × CatValue :=
  let r := st.subscribe bid thr
  (r.1, r.2.1, CatValue.query)

/-- The body of the listener `CatQuery.bind` subscribes, interpreted
over an event trace: on each invocation of the bound listener, the
new markup `renderFn state` is applied to the target through the html
patch rule with `adding` unset. -/
def applyRenderEvents {Node : Type} (parse : String → List Node)
    (ser : List Node → String) (clone : Node → Node)
    (renderFn : Obj → String) (bid : Nat)
    (events : List Event) (target : List Node) : List Node :=
  match events with
  | [] => target
  | Event.save _ _ :: rest =>
      applyRenderEvents parse ser clone renderFn bid rest target
  | Event.call l s :: rest =>
      if l = bid then
        applyRenderEvents parse ser clone renderFn bid rest
          (htmlSet parse ser clone (renderFn s) false target)
      else applyRenderEvents parse ser clone renderFn bid rest target

/-- Events of a trace that are listener invocations. -/
def isCall : Event → Bool
  | Event.call _ _ => true
  | Event.save _ _ => false

/-- The listener invocations of a trace, in order. -/
def callEvents (events : List Event) : List Event :=
  events.filter isCall

/-- Whether an event is an invocation of a given listener. -/
def isCallTo (l : Nat) : Event → Bool
  | Event.call l' _ => l' == l
  | Event.save _ _ => false

/-- A sample initial record used by concrete witnesses. -/
def sampleInit : Obj := [("count", JsValue.num 0)]

/-- Listener behaviour where no callback ever throws. -/
def noThrow : Nat → Obj → Bool := fun _ _ => false

/-- Persistence behaviour where no save ever throws. -/
def noSaveFail : String → Obj → Bool := fun _ _ => false

/-- Persistence behaviour where every save throws (e.g. quota
exceeded). -/
def alwaysSaveFail : String → Obj → Bool := fun _ _ => true

/-- A sample store with slot "k" and one subscriber, identity 7,
reached by constructing over empty storage and subscribing. -/
def sampleStore : CatStore :=
  ((CatStore.construct [] sampleInit (some "k")).subscribe 7 noThrow).1

example : sampleStore.listeners = [7] := by decide
example : sampleStore.state = sampleInit := by decide
example :
    (sampleStore.setField [] noSaveFail noThrow "count" (JsValue.num 1)).events =
      [Event.save "k" [("count", JsValue.num 1)],
       Event.call 7 [("count", JsValue.num 1)]] := by decide
example :
    (sampleStore.setField [] alwaysSaveFail noThrow "count" (JsValue.num 1)).events
      = [] := by decide

/-! Helper lemmas about the registry, the record, the storage surface
and the notification pass. -/

theorem mem_addListener (ls : List Nat) (l : Nat) : l ∈ addListener ls l := by
  by_cases h : l ∈ ls <;> simp [addListener, h]

theorem addListener_of_not_mem {ls : List Nat} {l : Nat} (h : l ∉ ls) :
    addListener ls l = ls ++ [l] := by
  simp [addListener, h]

theorem addListener_of_mem {ls : List Nat} {l : Nat} (h : l ∈ ls) :
    addListener ls l = ls := by
  simp [addListener, h]

theorem objSet_self (o : Obj) (k : String) (v : JsValue)
    (h : objGet o k = some v) : objSet o k v = o := by
  induction o with
  | nil => simp [objGet] at h
  | cons p rest ih =>
      obtain ⟨k', v'⟩ := p
      by_cases hk : k' = k
      · subst hk
        have h' : v' = v := by simpa [objGet] using h
        subst h'
        simp [objSet]
      · simp only [objGet, if_neg hk] at h
        simp [objSet, hk, ih h]

theorem storageGet_set (st : Storage) (k : String) (o : Obj) :
    storageGet (storageSet st k o) k = some o := by
  induction st with
  | nil => simp [storageSet, storageGet]
  | cons p rest ih =>
      obtain ⟨k', o'⟩ := p
      by_cases hk : k' = k
      · simp [storageSet, storageGet, hk]
      · simp [storageSet, storageGet, hk, ih]

theorem notifyFrom_ok (ls : List Nat) (s : Obj) (thr : Nat → Obj → Bool)
    (h : ∀ l ∈ ls, thr l s = false) :
    notifyFrom ls s thr = (ls.map (fun l => Event.call l s), none) := by
  induction ls with
  | nil => rfl
  | cons l rest ih =>
      have hl : thr l s = false := h l (List.mem_cons_self l rest)
      have ih' := ih (fun x hx => h x (List.mem_cons_of_mem l hx))
      simp [notifyFrom, hl, ih']

theorem notifyFrom_abort (pre : List Nat) (bad : Nat) (post : List Nat)
    (s : Obj) (thr : Nat → Obj → Bool)
    (hpre : ∀ l ∈ pre, thr l s = false) (hbad : thr bad s = true) :
    notifyFrom (pre ++ bad :: post) s thr =
      ((pre ++ [bad]).map (fun l => Event.call l s),
       some (WriteError.listenerError bad)) := by
  induction pre with
  | nil => simp [notifyFrom, hbad]
  | cons l rest ih =>
      have hl : thr l s = false := hpre l (List.mem_cons_self l rest)
      have ih' := ih (fun x hx => hpre x (List.mem_cons_of_mem l hx))
      simp [notifyFrom, hl, ih']

theorem callEvents_calls (ls : List Nat) (s : Obj) :
    callEvents (ls.map (fun l => Event.call l s)) =
      ls.map (fun l => Event.call l s) := by
  rw [callEvents, List.filter_eq_self]
  intro a ha
  simp only [List.mem_map] at ha
  obtain ⟨l, _, rfl⟩ := ha
  rfl

theorem setField_store (st : CatStore) (storage : Storage)
    (saveThrows : String → Obj → Bool) (thr : Nat → Obj → Bool)
    (k : String) (v : JsValue) :
    (st.setField storage saveThrows thr k v).store =
      { st with state := objSet st.state k v } := by
  unfold CatStore.setField
  cases st.storageKey with
  | none => rfl
  | some key =>
      dsimp only
      split
      · rfl
      · split <;> rfl

theorem setField_callEvents (st : CatStore) (storage : Storage)
    (saveThrows : String → Obj → Bool) (thr : Nat → Obj → Bool)
    (k : String) (v : JsValue)
    (hsave : ∀ key s, saveThrows key s = false) :
    callEvents (st.setField storage saveThrows thr k v).events =
      callEvents (notifyFrom st.listeners (objSet st.state k v) thr).1 ∧
    (st.setField storage saveThrows thr k v).error =
      (notifyFrom st.listeners (objSet st.state k v) thr).2 := by
  cases hk : st.storageKey with
  | none => simp [CatStore.setField, hk, CatStore.notify]
  | some key =>
      by_cases he : key = ""
      · simp [CatStore.setField, hk, he, CatStore.notify]
      · simp [CatStore.setField, hk, he, hsave, CatStore.notify, callEvents,
          isCall]

theorem setField_events_no_fail (st : CatStore) (storage : Storage)
    (saveThrows : String → Obj → Bool) (thr : Nat → Obj → Bool)
    (k : String) (v : JsValue)
    (hsave : ∀ key s, saveThrows key s = false)
    (hthr : ∀ x s, thr x s = false) :
    (st.setField storage saveThrows thr k v).events =
      (match st.storageKey with
        | some key =>
            if key = "" then []
            else [Event.save key (objSet st.state k v)]
        | none => []) ++
        st.listeners.map (fun l => Event.call l (objSet st.state k v)) ∧
    (st.setField storage saveThrows thr k v).error = none := by
  have hn := notifyFrom_ok st.listeners (objSet st.state k v) thr
    (fun l _ => hthr l _)
  cases hk : st.storageKey with
  | none => simp [CatStore.setField, hk, CatStore.notify, hn]
  | some key =>
      by_cases he : key = ""
      · simp [CatStore.setField, hk, he, CatStore.notify, hn]
      · simp [CatStore.setField, hk, he, hsave, CatStore.notify, hn]

theorem applyRenderEvents_append {Node : Type} (parse : String → List Node)
    (ser : List Node → String) (clone : Node → Node)
    (renderFn : Obj → String) (bid : Nat)
    (evs1 evs2 : List Event) (t : List Node) :
    applyRenderEvents parse ser clone renderFn bid (evs1 ++ evs2) t =
      applyRenderEvents parse ser clone renderFn bid evs2
        (applyRenderEvents parse ser clone renderFn bid evs1 t) := by
  induction evs1 generalizing t with
  | nil => rfl
  | cons e rest ih =>
      cases e with
      | save slot snap => simp [applyRenderEvents, ih]
      | call l s =>
          by_cases hl : l = bid <;> simp [applyRenderEvents, hl, ih]

theorem applyRenderEvents_skip {Node : Type} (parse : String → List Node)
    (ser : List Node → String) (clone : Node → Node)
    (renderFn : Obj → String) (bid : Nat) (ls : List Nat) (s : Obj)
    (t : List Node) (h : bid ∉ ls) :
    applyRenderEvents parse ser clone renderFn bid
      (ls.map (fun l => Event.call l s)) t = t := by
  induction ls with
  | nil => rfl
  | cons l rest ih =>
      have hl : ¬ l = bid := by
        intro he
        exact h (he ▸ List.mem_cons_self l rest)
      have ih' := ih (fun hm => h (List.mem_cons_of_mem l hm))
      simp [applyRenderEvents, hl, ih']

theorem filter_isCallTo_length (ls : List Nat) (l : Nat) (s : Obj)
    (h : l ∉ ls) :
    (((ls ++ [l]).map (fun x => Event.call x s)).filter (isCallTo l)).length
      = 1 := by
  induction ls with
  | nil => simp [isCallTo]
  | cons x rest ih =>
      have hx : ¬ x = l := by
        intro he
        exact h (he ▸ List.mem_cons_self x rest)
      have ih' := ih (fun hm => h (List.mem_cons_of_mem x hm))
      simpa [List.filter_cons, isCallTo, hx] using ih'

/-! Claim theorems. -/

/-- C1 (amended): for every store constructed with a truthy storage
slot, when the persistence save performed during a field write fails
(the underlying save operation throws), the in-memory state update
still takes effect, but no subscriber is notified for that write: the
exception propagates to the mutating caller before notification, and
the persisted snapshot is not updated. -/
theorem c1_save_failure_semantics (st : CatStore) (storage : Storage)
    (saveThrows : String → Obj → Bool) (thr : Nat → Obj → Bool)
    (k : String) (v : JsValue) (key : String)
    (hkey : st.storageKey = some key) (hk : key ≠ "")
    (hsave : saveThrows key (objSet st.state k v) = true) :
    (st.setField storage saveThrows thr k v).store.state
        = objSet st.state k v ∧
    (st.setField storage saveThrows thr k v).events = [] ∧
    (st.setField storage saveThrows thr k v).storage = storage ∧
    (st.setField storage saveThrows thr k v).error
        = some WriteError.saveFailure := by
  simp [CatStore.setField, hkey, hk, hsave]

/-- C1 witness at a concrete input. -/
theorem c1_save_failure_semantics_w :
    (sampleStore.setField [] alwaysSaveFail noThrow "count"
        (JsValue.num 1)).store.state
        = objSet sampleStore.state "count" (JsValue.num 1) ∧
    (sampleStore.setField [] alwaysSaveFail noThrow "count"
        (JsValue.num 1)).events = [] ∧
    (sampleStore.setField [] alwaysSaveFail noThrow "count"
        (JsValue.num 1)).storage = [] ∧
    (sampleStore.setField [] alwaysSaveFail noThrow "count"
        (JsValue.num 1)).error = some WriteError.saveFailure :=
  c1_save_failure_semantics sampleStore [] alwaysSaveFail noThrow "count"
    (JsValue.num 1) "k" rfl (by decide) rfl

/-- C1 as stated is false on the code: sampleStore has slot "k" and
subscriber 7; with a save that throws, the field write updates the
in-memory state, yet no listener invocation is emitted, so subscriber
7 is not notified on that write. -/
theorem c1_claim_false_at_input :
    sampleStore.listeners = [7] ∧
    (sampleStore.setField [] alwaysSaveFail noThrow "count"
        (JsValue.num 1)).store.state = [("count", JsValue.num 1)] ∧
    (sampleStore.setField [] alwaysSaveFail noThrow "count"
        (JsValue.num 1)).events = [] := by
  decide

/-- C3: for every store with a configured (truthy) storage slot, each
field write (a) applies the value to the underlying record, then (b)
writes a snapshot of the entire current record to the persistence slot
before notifying, then (c) notifies all subscribers with the full
current state in subscriber-registration order — the write's trace is
exactly the save followed by the calls, all produced by that one
mutating call. -/
theorem c3_write_order (st : CatStore) (storage : Storage)
    (saveThrows : String → Obj → Bool) (thr : Nat → Obj → Bool)
    (k : String) (v : JsValue) (key : String)
    (hkey : st.storageKey = some key) (hk : key ≠ "")
    (hsave : saveThrows key (objSet st.state k v) = false)
    (hthr : ∀ l ∈ st.listeners, thr l (objSet st.state k v) = false) :
    (st.setField storage saveThrows thr k v).store.state
        = objSet st.state k v ∧
    (st.setField storage saveThrows thr k v).storage
        = storageSet storage key (objSet st.state k v) ∧
    (st.setField storage saveThrows thr k v).events
        = Event.save key (objSet st.state k v)
            :: st.listeners.map (fun l => Event.call l (objSet st.state k v)) ∧
    (st.setField storage saveThrows thr k v).error = none := by
  have hn := notifyFrom_ok st.listeners (objSet st.state k v) thr hthr
  simp [CatStore.setField, hkey, hk, hsave, CatStore.notify, hn]

/-- C3 witness at a concrete input. -/
theorem c3_write_order_w :
    (sampleStore.setField [] noSaveFail noThrow "count"
        (JsValue.num 1)).store.state
        = objSet sampleStore.state "count" (JsValue.num 1) ∧
    (sampleStore.setField [] noSaveFail noThrow "count"
        (JsValue.num 1)).storage
        = storageSet [] "k" (objSet sampleStore.state "count" (JsValue.num 1)) ∧
    (sampleStore.setField [] noSaveFail noThrow "count"
        (JsValue.num 1)).events
        = Event.save "k" (objSet sampleStore.state "count" (JsValue.num 1))
            :: sampleStore.listeners.map
              (fun l => Event.call l (objSet sampleStore.state "count" (JsValue.num 1))) ∧
    (sampleStore.setField [] noSaveFail noThrow "count"
        (JsValue.num 1)).error = none :=
  c3_write_order sampleStore [] noSaveFail noThrow "count" (JsValue.num 1)
    "k" rfl (by decide) rfl (fun l _ => rfl)

/-- C5 (amended): for every initial record and non-empty slot key,
constructing a store with that slot over any storage, mutating a
field (with the save not failing), then constructing a second store
with the same slot over the resulting storage yields a second store
whose starting state equals the first store's mutated state: the
persisted snapshot replaces the initial value at construction. -/
theorem c5_round_trip (storage : Storage) (initialState : Obj)
    (key f : String) (v : JsValue)
    (saveThrows : String → Obj → Bool) (thr : Nat → Obj → Bool)
    (hk : key ≠ "") (hsave : ∀ s, saveThrows key s = false) :
    (CatStore.construct
        ((CatStore.construct storage initialState (some key)).setField
            storage saveThrows thr f v).storage
        initialState (some key)).state
      = ((CatStore.construct storage initialState (some key)).setField
            storage saveThrows thr f v).store.state := by
  simp [CatStore.construct, CatStore.setField, hk, hsave, CatStore.notify,
    notifyFrom, storageGet_set]

/-- C5 witness at a concrete input. -/
theorem c5_round_trip_w :
    (CatStore.construct
        ((CatStore.construct [] sampleInit (some "k")).setField
            [] noSaveFail noThrow "count" (JsValue.num 1)).storage
        sampleInit (some "k")).state
      = ((CatStore.construct [] sampleInit (some "k")).setField
            [] noSaveFail noThrow "count" (JsValue.num 1)).store.state :=
  c5_round_trip [] sampleInit "k" "count" (JsValue.num 1) noSaveFail noThrow
    (by decide) (fun _ => rfl)

/-- C5 as stated is false on the code at slot key "" : the empty key
is falsy, so the first store persists nothing, and the second store
constructed with the same slot starts from the original initial value,
not the mutated state. -/
theorem c5_claim_false_at_input :
    ((CatStore.construct [] sampleInit (some "")).setField [] noSaveFail
        noThrow "count" (JsValue.num 1)).store.state
        = [("count", JsValue.num 1)] ∧
    (CatStore.construct
        ((CatStore.construct [] sampleInit (some "")).setField [] noSaveFail
            noThrow "count" (JsValue.num 1)).storage
        sampleInit (some "")).state = [("count", JsValue.num 0)] ∧
    ([("count", JsValue.num 0)] : Obj) ≠ [("count", JsValue.num 1)] := by
  decide

/-- C6: subscribe adds the listener to the registry and immediately
invokes it exactly once, synchronously, with the state current at
subscribe time, before returning the unsubscribe handle — even if no
mutation ever occurs afterward. -/
theorem c6_subscribe_replay (st : CatStore) (l : Nat)
    (thr : Nat → Obj → Bool) (h : thr l st.state = false) :
    (st.subscribe l thr).1.listeners = addListener st.listeners l ∧
    l ∈ (st.subscribe l thr).1.listeners ∧
    (st.subscribe l thr).2.1 = [Event.call l st.state] ∧
    (st.subscribe l thr).2.2 = some { listener := l } := by
  refine ⟨?_, ?_, ?_, ?_⟩ <;>
    simp [CatStore.subscribe, h, mem_addListener]

/-- C6 witness at a concrete input. -/
theorem c6_subscribe_replay_w :
    ((CatStore.construct [] sampleInit none).subscribe 3 noThrow).1.listeners
        = addListener (CatStore.construct [] sampleInit none).listeners 3 ∧
    3 ∈ ((CatStore.construct [] sampleInit none).subscribe 3 noThrow).1.listeners ∧
    ((CatStore.construct [] sampleInit none).subscribe 3 noThrow).2.1
        = [Event.call 3 (CatStore.construct [] sampleInit none).state] ∧
    ((CatStore.construct [] sampleInit none).subscribe 3 noThrow).2.2
        = some { listener := 3 } :=
  c6_subscribe_replay (CatStore.construct [] sampleInit none) 3 noThrow rfl

/-- C7: when some subscriber's callback throws during the notification
pass of a field write, subscribers earlier in registration order have
already been notified for that mutation (and the throwing subscriber
itself was invoked), subscribers later in the order are not notified
for it, and the error is not suppressed: it propagates to the caller
that performed the mutation. -/
theorem c7_listener_throw (st : CatStore) (storage : Storage)
    (saveThrows : String → Obj → Bool) (thr : Nat → Obj → Bool)
    (k : String) (v : JsValue) (pre post : List Nat) (bad : Nat)
    (hl : st.listeners = pre ++ bad :: post)
    (hsave : ∀ key s, saveThrows key s = false)
    (hpre : ∀ l ∈ pre, thr l (objSet st.state k v) = false)
    (hbad : thr bad (objSet st.state k v) = true) :
    callEvents (st.setField storage saveThrows thr k v).events
      = (pre ++ [bad]).map (fun l => Event.call l (objSet st.state k v)) ∧
    (st.setField storage saveThrows thr k v).error
      = some (WriteError.listenerError bad) := by
  obtain ⟨hce, herr⟩ := setField_callEvents st storage saveThrows thr k v hsave
  rw [hce, herr, hl,
    notifyFrom_abort pre bad post (objSet st.state k v) thr hpre hbad]
  exact ⟨callEvents_calls _ _, rfl⟩

/-- C7 witness at a concrete input: listeners 1, 2, 3 with listener 2
throwing — 1 and 2 are invoked, 3 is not, and the error escapes. -/
theorem c7_listener_throw_w :
    callEvents ((CatStore.mk [1, 2, 3] sampleInit none).setField []
        noSaveFail (fun l _ => l == 2) "count" (JsValue.num 1)).events
      = ([1] ++ [2]).map
          (fun l => Event.call l (objSet sampleInit "count" (JsValue.num 1))) ∧
    ((CatStore.mk [1, 2, 3] sampleInit none).setField []
        noSaveFail (fun l _ => l == 2) "count" (JsValue.num 1)).error
      = some (WriteError.listenerError 2) :=
  c7_listener_throw (CatStore.mk [1, 2, 3] sampleInit none) [] noSaveFail
    (fun l _ => l == 2) "count" (JsValue.num 1) [1] [3] 2 rfl
    (fun _ _ => rfl) (by decide) rfl

/-- C8: a field write notifies every subscriber with the full current
state even when the newly written value equals the field's old value —
no equality-based change filtering is performed. -/
theorem c8_no_change_filter (st : CatStore) (storage : Storage)
    (saveThrows : String → Obj → Bool) (thr : Nat → Obj → Bool)
    (k : String) (v : JsValue)
    (hv : objGet st.state k = some v)
    (hsave : ∀ key s, saveThrows key s = false)
    (hthr : ∀ x s, thr x s = false) :
    callEvents (st.setField storage saveThrows thr k v).events
      = st.listeners.map (fun l => Event.call l st.state) ∧
    (st.setField storage saveThrows thr k v).error = none := by
  obtain ⟨hce, herr⟩ := setField_callEvents st storage saveThrows thr k v hsave
  rw [hce, herr, objSet_self st.state k v hv,
    notifyFrom_ok st.listeners st.state thr (fun l _ => hthr l _)]
  exact ⟨callEvents_calls _ _, rfl⟩

/-- C8 witness at a concrete input: writing count := 0 over count = 0
still notifies subscriber 7. -/
theorem c8_no_change_filter_w :
    callEvents (sampleStore.setField [] noSaveFail noThrow "count"
        (JsValue.num 0)).events
      = sampleStore.listeners.map (fun l => Event.call l sampleStore.state) ∧
    (sampleStore.setField [] noSaveFail noThrow "count"
        (JsValue.num 0)).error = none :=
  c8_no_change_filter sampleStore [] noSaveFail noThrow "count"
    (JsValue.num 0) (by decide) (fun _ _ => rfl) (fun _ _ => rfl)

/-- C9: invoking the unsubscribe handle returned by subscribe removes
exactly that one listener instance — it is gone from the registry and
receives no subsequent notification, while every other registered
listener remains and continues to be notified — and invoking the same
handle again is a no-op, never an error. -/
theorem c9_unsubscribe (st : CatStore) (storage : Storage)
    (saveThrows : String → Obj → Bool) (thr : Nat → Obj → Bool)
    (l : Nat) (k : String) (v : JsValue)
    (hsave : ∀ key s, saveThrows key s = false)
    (hthr : ∀ x s, thr x s = false) :
    l ∉ (st.applyUnsub { listener := l }).listeners ∧
    (∀ x ∈ st.listeners, x ≠ l →
      x ∈ (st.applyUnsub { listener := l }).listeners) ∧
    callEvents ((st.applyUnsub { listener := l }).setField storage
        saveThrows thr k v).events
      = (st.listeners.filter (fun x => x != l)).map
          (fun x => Event.call x (objSet st.state k v)) ∧
    (st.applyUnsub { listener := l }).applyUnsub { listener := l }
      = st.applyUnsub { listener := l } := by
  refine ⟨?_, ?_, ?_, ?_⟩
  · simp [CatStore.applyUnsub]
  · intro x hx hxl
    simp [CatStore.applyUnsub, hx, hxl]
  · obtain ⟨hce, _⟩ := setField_callEvents (st.applyUnsub { listener := l })
      storage saveThrows thr k v hsave
    rw [hce]
    have hn := notifyFrom_ok (st.applyUnsub { listener := l }).listeners
      (objSet (st.applyUnsub { listener := l }).state k v) thr
      (fun x _ => hthr x _)
    rw [hn]
    exact callEvents_calls _ _
  · simp [CatStore.applyUnsub, List.filter_filter]

/-- C9 witness at a concrete input: unsubscribing listener 2 from a
store with listeners 1, 2, 3. -/
theorem c9_unsubscribe_w :
    2 ∉ ((CatStore.mk [1, 2, 3] sampleInit none).applyUnsub
        { listener := 2 }).listeners ∧
    (∀ x ∈ (CatStore.mk [1, 2, 3] sampleInit none).listeners, x ≠ 2 →
      x ∈ ((CatStore.mk [1, 2, 3] sampleInit none).applyUnsub
        { listener := 2 }).listeners) ∧
    callEvents (((CatStore.mk [1, 2, 3] sampleInit none).applyUnsub
        { listener := 2 }).setField [] noSaveFail noThrow "count"
        (JsValue.num 1)).events
      = ((CatStore.mk [1, 2, 3] sampleInit none).listeners.filter
          (fun x => x != 2)).map
          (fun x => Event.call x (objSet sampleInit "count" (JsValue.num 1))) ∧
    ((CatStore.mk [1, 2, 3] sampleInit none).applyUnsub
        { listener := 2 }).applyUnsub { listener := 2 }
      = (CatStore.mk [1, 2, 3] sampleInit none).applyUnsub { listener := 2 } :=
  c9_unsubscribe (CatStore.mk [1, 2, 3] sampleInit none) [] noSaveFail
    noThrow 2 "count" (JsValue.num 1) (fun _ _ => rfl) (fun _ _ => rfl)

/-- C10: subscribing the very same function identity twice collapses
to a single registry entry — the replay invocation fires on each
subscribe call, a subsequent field write invokes that listener only
once, both returned unsubscribe handles capture the same listener, and
invoking either removes the listener entirely, the other invocation
then being a no-op. -/
theorem c10_duplicate_subscribe (st : CatStore) (storage : Storage)
    (saveThrows : String → Obj → Bool) (thr : Nat → Obj → Bool)
    (l : Nat) (k : String) (v : JsValue)
    (hfresh : l ∉ st.listeners)
    (hsave : ∀ key s, saveThrows key s = false)
    (hthr : ∀ x s, thr x s = false) :
    ((st.subscribe l thr).1.subscribe l thr).1.listeners
        = st.listeners ++ [l] ∧
    (st.subscribe l thr).2.1 = [Event.call l st.state] ∧
    ((st.subscribe l thr).1.subscribe l thr).2.1
        = [Event.call l st.state] ∧
    ((callEvents (((st.subscribe l thr).1.subscribe l thr).1.setField
        storage saveThrows thr k v).events).filter (isCallTo l)).length = 1 ∧
    (st.subscribe l thr).2.2 = some { listener := l } ∧
    ((st.subscribe l thr).1.subscribe l thr).2.2 = some { listener := l } ∧
    l ∉ (((st.subscribe l thr).1.subscribe l thr).1.applyUnsub
        { listener := l }).listeners ∧
    ((((st.subscribe l thr).1.subscribe l thr).1.applyUnsub
        { listener := l }).applyUnsub { listener := l })
      = (((st.subscribe l thr).1.subscribe l thr).1.applyUnsub
        { listener := l }) := by
  have h1 : (st.subscribe l thr).1
      = { st with listeners := st.listeners ++ [l] } := by
    simp [CatStore.subscribe, addListener_of_not_mem hfresh, hthr l st.state]
  have h2 : ((st.subscribe l thr).1.subscribe l thr).1
      = { st with listeners := st.listeners ++ [l] } := by
    rw [h1]
    simp [CatStore.subscribe, hthr l st.state, addListener_of_mem
      (List.mem_append_right st.listeners (List.mem_singleton_self l))]
  refine ⟨by rw [h2], ?_, ?_, ?_, ?_, ?_, ?_, ?_⟩
  · simp [CatStore.subscribe, hthr l st.state]
  · rw [h1]; simp [CatStore.subscribe, hthr l st.state]
  · rw [h2]
    obtain ⟨hce, _⟩ := setField_callEvents
      { st with listeners := st.listeners ++ [l] } storage saveThrows thr k v
      hsave
    rw [hce, notifyFrom_ok _ _ thr (fun x _ => hthr x _),
      callEvents_calls]
    exact filter_isCallTo_length st.listeners l _ hfresh
  · simp [CatStore.subscribe, hthr l st.state]
  · rw [h1]; simp [CatStore.subscribe, hthr l st.state]
  · rw [h2]; simp [CatStore.applyUnsub]
  · rw [h2]; simp [CatStore.applyUnsub, List.filter_filter]

/-- C10 witness at a concrete input. -/
theorem c10_duplicate_subscribe_w :
    ((sampleStore.subscribe 9 noThrow).1.subscribe 9 noThrow).1.listeners
        = sampleStore.listeners ++ [9] ∧
    (sampleStore.subscribe 9 noThrow).2.1
        = [Event.call 9 sampleStore.state] ∧
    ((sampleStore.subscribe 9 noThrow).1.subscribe 9 noThrow).2.1
        = [Event.call 9 sampleStore.state] ∧
    ((callEvents (((sampleStore.subscribe 9 noThrow).1.subscribe 9
        noThrow).1.setField [] noSaveFail noThrow "count"
        (JsValue.num 1)).events).filter (isCallTo 9)).length = 1 ∧
    (sampleStore.subscribe 9 noThrow).2.2 = some { listener := 9 } ∧
    ((sampleStore.subscribe 9 noThrow).1.subscribe 9 noThrow).2.2
        = some { listener := 9 } ∧
    9 ∉ (((sampleStore.subscribe 9 noThrow).1.subscribe 9
        noThrow).1.applyUnsub { listener := 9 }).listeners ∧
    ((((sampleStore.subscribe 9 noThrow).1.subscribe 9
        noThrow).1.applyUnsub { listener := 9 }).applyUnsub
        { listener := 9 })
      = (((sampleStore.subscribe 9 noThrow).1.subscribe 9
        noThrow).1.applyUnsub { listener := 9 }) :=
  c10_duplicate_subscribe sampleStore [] noSaveFail noThrow 9 "count"
    (JsValue.num 1) (by decide) (fun _ _ => rfl) (fun _ _ => rfl)

theorem applyRenderEvents_saves {Node : Type} (parse : String → List Node)
    (ser : List Node → String) (clone : Node → Node)
    (renderFn : Obj → String) (bid : Nat) (evs : List Event)
    (h : ∀ e ∈ evs, isCall e = false) (t : List Node) :
    applyRenderEvents parse ser clone renderFn bid evs t = t := by
  induction evs with
  | nil => rfl
  | cons e rest ih =>
      cases e with
      | save slot snap =>
          simp [applyRenderEvents,
            ih (fun x hx => h x (List.mem_cons_of_mem _ hx))]
      | call l s =>
          exact absurd (h _ (List.mem_cons_self _ _)) (by simp [isCall])

/-- C4 (amended): for every target and every non-empty markup string,
the patch rule skips replacement entirely when the markup is textually
identical to the target's current serialized content, and otherwise
parses the markup into a detached node sequence and replaces the
target's entire child content with clones of that sequence (full
replacement, no element-level diffing); an empty markup string is
falsy, selects the getter overload of html, and performs no
replacement at all. -/
theorem c4_patch_rule {Node : Type} (parse : String → List Node)
    (ser : List Node → String) (clone : Node → Node)
    (markup : String) (children : List Node) (hne : markup ≠ "") :
    (ser children = markup →
      htmlSet parse ser clone markup false children = children) ∧
    (ser children ≠ markup →
      htmlSet parse ser clone markup false children
        = (parse markup).map clone) ∧
    htmlSet parse ser clone "" false children = children := by
  refine ⟨fun h => ?_, fun h => ?_, by simp [htmlSet]⟩
  · simp [htmlSet, hne, h]
  · simp [htmlSet, hne, h]

/-- C4 witness at a concrete input: a one-node target whose serialized
content is "x". -/
theorem c4_patch_rule_w :
    ((fun ns : List String => String.join ns) ["x"] = "x" →
      htmlSet (fun s => if s = "" then [] else [s])
        (fun ns => String.join ns) id "x" false ["x"] = ["x"]) ∧
    ((fun ns : List String => String.join ns) ["x"] ≠ "x" →
      htmlSet (fun s => if s = "" then [] else [s])
        (fun ns => String.join ns) id "x" false ["x"]
        = ((fun s : String => if s = "" then [] else [s]) "x").map id) ∧
    htmlSet (fun s => if s = "" then [] else [s])
      (fun ns => String.join ns) id "" false ["x"] = ["x"] :=
  c4_patch_rule (fun s => if s = "" then [] else [s])
    (fun ns => String.join ns) id "x" ["x"] (by decide)

/-- C4 as stated is false on the code at the empty markup string: the
target's serialized content "x" differs textually from the markup "",
yet the html rule leaves the target's children unchanged instead of
replacing them with clones of the parsed (empty) node sequence. -/
theorem c4_claim_false_at_input :
    (fun ns : List String => String.join ns) ["x"] ≠ "" ∧
    htmlSet (fun s : String => if s = "" then [] else [s])
      (fun ns => String.join ns) id "" false ["x"] = ["x"] ∧
    htmlSet (fun s : String => if s = "" then [] else [s])
      (fun ns => String.join ns) id "" false ["x"]
      ≠ ((fun s : String => if s = "" then [] else [s]) "").map id := by
  refine ⟨by decide, by simp [htmlSet], by simp [htmlSet]⟩

/-- C2 (amended): bind subscribes the fresh render listener to the
store (with the immediate replay) and returns the CatQuery instance
itself, discarding the unsubscribe handle of the subscription it
created — so the returned value is not an unsubscribe handle, the
render listener stays registered, and a subsequent field write still
invokes every listener including the render listener with the new
state, whose body re-renders the new markup into the target through
the patch rule. -/
theorem c2_bind_returns_query {Node : Type} (parse : String → List Node)
    (ser : List Node → String) (clone : Node → Node)
    (renderFn : Obj → String) (st : CatStore) (storage : Storage)
    (saveThrows : String → Obj → Bool) (thr : Nat → Obj → Bool)
    (bid : Nat) (k : String) (v : JsValue) (target : List Node)
    (hfresh : bid ∉ st.listeners)
    (hsave : ∀ key s, saveThrows key s = false)
    (hthr : ∀ x s, thr x s = false) :
    (CatQuery.bind st bid thr).2.2 = CatValue.query ∧
    (CatQuery.bind st bid thr).1.listeners = st.listeners ++ [bid] ∧
    callEvents ((CatQuery.bind st bid thr).1.setField storage saveThrows
        thr k v).events
      = (st.listeners ++ [bid]).map
          (fun x => Event.call x (objSet st.state k v)) ∧
    applyRenderEvents parse ser clone renderFn bid
        ((CatQuery.bind st bid thr).1.setField storage saveThrows
          thr k v).events target
      = htmlSet parse ser clone (renderFn (objSet st.state k v)) false
          target := by
  have hb1 : (CatQuery.bind st bid thr).1
      = { st with listeners := st.listeners ++ [bid] } := by
    simp [CatQuery.bind, CatStore.subscribe,
      addListener_of_not_mem hfresh, hthr bid st.state]
  refine ⟨rfl, by rw [hb1], ?_, ?_⟩
  · rw [hb1]
    obtain ⟨hce, _⟩ := setField_callEvents
      { st with listeners := st.listeners ++ [bid] } storage saveThrows thr
      k v hsave
    rw [hce, notifyFrom_ok _ _ thr (fun x _ => hthr x _), callEvents_calls]
  · rw [hb1]
    obtain ⟨hev, _⟩ := setField_events_no_fail
      { st with listeners := st.listeners ++ [bid] } storage saveThrows thr
      k v hsave hthr
    rw [hev, applyRenderEvents_append]
    rw [applyRenderEvents_saves parse ser clone renderFn bid _ ?hsaves target]
    case hsaves =>
      cases ({ st with listeners := st.listeners ++ [bid] } : CatStore).storageKey with
      | none => simp
      | some key => by_cases he : key = "" <;> simp [he, isCall]
    rw [List.map_append, applyRenderEvents_append,
      applyRenderEvents_skip parse ser clone renderFn bid st.listeners _
        target hfresh]
    simp [applyRenderEvents]

/-- C2 (amended) witness at a concrete input. -/
theorem c2_bind_returns_query_w :
    (CatQuery.bind sampleStore 9 noThrow).2.2 = CatValue.query ∧
    (CatQuery.bind sampleStore 9 noThrow).1.listeners
        = sampleStore.listeners ++ [9] ∧
    callEvents ((CatQuery.bind sampleStore 9 noThrow).1.setField []
        noSaveFail noThrow "count" (JsValue.num 1)).events
      = (sampleStore.listeners ++ [9]).map
          (fun x => Event.call x (objSet sampleStore.state "count"
            (JsValue.num 1))) ∧
    applyRenderEvents (fun s => if s = "" then [] else [s])
        (fun ns => String.join ns) id (fun _ => "<div>1</div>") 9
        ((CatQuery.bind sampleStore 9 noThrow).1.setField []
          noSaveFail noThrow "count" (JsValue.num 1)).events ["old"]
      = htmlSet (fun s => if s = "" then [] else [s])
          (fun ns => String.join ns) id
          ((fun _ : Obj => "<div>1</div>") (objSet sampleStore.state
            "count" (JsValue.num 1))) false ["old"] :=
  c2_bind_returns_query (fun s => if s = "" then [] else [s])
    (fun ns => String.join ns) id (fun _ => "<div>1</div>") sampleStore []
    noSaveFail noThrow 9 "count" (JsValue.num 1) ["old"] (by decide)
    (fun _ _ => rfl) (fun _ _ => rfl)

/-- C2 as stated is false on the code: at a concrete store, the value
bind returns is the CatQuery instance, not an unsubscribe handle for
the subscription it created. -/
theorem c2_claim_false_at_input :
    ¬ ∃ u : Unsub,
      (CatQuery.bind (CatStore.construct [] sampleInit none) 5
        noThrow).2.2 = CatValue.unsub u := by
  rintro ⟨u, h⟩
  exact CatValue.noConfusion h
